import Mathlib

/-!
Verification of the EDXRaster core against its specification.

The definitions below are shallow embeddings of the C++ sources:
  - EDXRaster/Core/Shader.h          (vertex/pixel shaders, interpolation, CoverageMask)
  - EDXRaster/Core/Renderer.cpp      (pipeline driver, binning, tile dispatch, framebuffer update)
  - EDXRaster/ShaderCompiler/CompilerCommon.h  (CompileError)

Floating-point quantities are modelled over ℚ (exact arithmetic); machine
integers over ℤ/ℕ with explicit shifts where the code shifts.  Components of
the repository whose implementation files are not among the provided sources
(Clipper, Rasterizer, FrameBuffer internals, texture sampling) are modelled
from the specification and carry a doc comment saying so.
-/

namespace EDXRaster

/-- 2-component rational vector (models `Vector2`). -/
@[ext]
structure Vec2 where
  x : ℚ
  y : ℚ
deriving DecidableEq

/-- 3-component rational vector (models `Vector3`). -/
@[ext]
structure Vec3 where
  x : ℚ
  y : ℚ
  z : ℚ
deriving DecidableEq

/-- 4-component rational vector (models `Vector4`). -/
@[ext]
structure Vec4 where
  x : ℚ
  y : ℚ
  z : ℚ
  w : ℚ
deriving DecidableEq

def smul2 (a : ℚ) (v : Vec2) : Vec2 := ⟨a * v.x, a * v.y⟩

def add2 (u v : Vec2) : Vec2 := ⟨u.x + v.x, u.y + v.y⟩

def smul3 (a : ℚ) (v : Vec3) : Vec3 := ⟨a * v.x, a * v.y, a * v.z⟩

def add3 (u v : Vec3) : Vec3 := ⟨u.x + v.x, u.y + v.y, u.z + v.z⟩

/-- Model of `ProjectedVertex` (Shader.h): clip-space position, reciprocal w,
and the pass-through model-space attributes. -/
@[ext]
structure ProjectedVertex where
  projectedPos : Vec4
  invW : ℚ
  position : Vec3
  normal : Vec3
  texCoord : Vec2
deriving DecidableEq

/-- Model of `Fragment::Interpolate` (Shader.h, lines 61-79): perspective-correct
barycentric interpolation of the three model-space attributes.  Returns
(position, normal, texCoord). -/
def fragmentInterpolate (v0 v1 v2 : ProjectedVertex) (b0 b1 : ℚ) :
    Vec3 × Vec3 × Vec2 :=
  let b2 := 1 - b0 - b1
  let b0 := b0 * v0.invW
  let b1 := b1 * v1.invW
  let b2 := b2 * v2.invW
  let invB := 1 / (b0 + b1 + b2)
  let b0 := b0 * invB
  let b1 := b1 * invB
  let b2 := 1 - b0 - b1
  (add3 (add3 (smul3 b0 v0.position) (smul3 b1 v1.position)) (smul3 b2 v2.position),
   add3 (add3 (smul3 b0 v0.normal) (smul3 b1 v1.normal)) (smul3 b2 v2.normal),
   add2 (add2 (smul2 b0 v0.texCoord) (smul2 b1 v1.texCoord)) (smul2 b2 v2.texCoord))

/-- Model of `QuadFragment::Interpolate` (Shader.h, lines 138-160): the same
computation performed SIMD-wide over the four lanes of a 2x2 quad; every SSE
operation in the source is lane-wise, so each lane is modelled as the scalar
computation on that lane's barycentrics. -/
def quadInterpolate (v0 v1 v2 : ProjectedVertex) (b0 b1 : Fin 4 → ℚ) :
    (Fin 4 → Vec3) × (Fin 4 → Vec3) × (Fin 4 → Vec2) :=
  let b2 := fun i => 1 - b0 i - b1 i
  let b0 := fun i => b0 i * v0.invW
  let b1 := fun i => b1 i * v1.invW
  let b2 := fun i => b2 i * v2.invW
  let invB := fun i => 1 / (b0 i + b1 i + b2 i)
  let b0 := fun i => b0 i * invB i
  let b1 := fun i => b1 i * invB i
  let b2 := fun i => 1 - b0 i - b1 i
  (fun i => add3 (add3 (smul3 (b0 i) v0.position) (smul3 (b1 i) v1.position))
      (smul3 (b2 i) v2.position),
   fun i => add3 (add3 (smul3 (b0 i) v0.normal) (smul3 (b1 i) v1.normal))
      (smul3 (b2 i) v2.normal),
   fun i => add2 (add2 (smul2 (b0 i) v0.texCoord) (smul2 (b1 i) v1.texCoord))
      (smul2 (b2 i) v2.texCoord))

/-- Model of `CoverageMask` (Shader.h, lines 82-125): four 32-bit words.
Bitwise operations are modelled on ℕ (AND/OR/shift never overflow a word for
indices below 128). -/
structure CoverageMask where
  b0 : ℕ
  b1 : ℕ
  b2 : ℕ
  b3 : ℕ
deriving DecidableEq

/-- `bits[id]` of `CoverageMask` for `id = i >> 5` (word select). -/
def CoverageMask.word (m : CoverageMask) (id : ℕ) : ℕ :=
  match id with
  | 0 => m.b0
  | 1 => m.b1
  | 2 => m.b2
  | _ => m.b3

/-- Write `bits[id]` of `CoverageMask` (word update). -/
def CoverageMask.setWord (m : CoverageMask) (id w : ℕ) : CoverageMask :=
  match id with
  | 0 => { m with b0 := w }
  | 1 => { m with b1 := w }
  | 2 => { m with b2 := w }
  | _ => { m with b3 := w }

/-- `CoverageMask::CoverageMask()`: all four words zero. -/
def CoverageMask.empty : CoverageMask := ⟨0, 0, 0, 0⟩

/-- `CoverageMask::SetBit(int i)`: `bits[i >> 5] |= 1 << (i & 31)`. -/
def CoverageMask.SetBit (m : CoverageMask) (i : ℕ) : CoverageMask :=
  m.setWord (i >>> 5) (m.word (i >>> 5) ||| (1 <<< (i &&& 31)))

/-- `CoverageMask::GetBit(int i)`: `bits[i >> 5] & (1 << (i & 31))`. -/
def CoverageMask.GetBit (m : CoverageMask) (i : ℕ) : ℕ :=
  m.word (i >>> 5) &&& (1 <<< (i &&& 31))

/-- `CoverageMask::Merge()`: OR of the four words. -/
def CoverageMask.Merge (m : CoverageMask) : ℕ :=
  m.b0 ||| m.b1 ||| m.b2 ||| m.b3

/-- Model of `CompileError` (CompilerCommon.h, lines 267-283). -/
structure CompileError where
  ErrorMsg : String
  FileName : String
  LineNumber : ℤ
  ColumnNumber : ℤ
deriving DecidableEq

/-- `CompileError::CompileError(msg, file, line, coloum)`: the member
initializer list sets `FileName`, `LineNumber` and `ColumnNumber` from the
arguments; `ErrorMsg` is left default-constructed (the empty string) and the
`msg` argument is not used anywhere in the constructor body. -/
def CompileError.construct (_msg file : String) (line coloum : ℤ) : CompileError :=
  { ErrorMsg := "", FileName := file, LineNumber := line, ColumnNumber := coloum }

/-- An RGB color (rational components). -/
abbrev Color := ℚ × ℚ × ℚ

/-- A texture slot, modelled by its sampling function; `TextureSlot::Sample`
is an external library per the spec (§1, §6). -/
abbrev TextureSlot := (ℚ × ℚ) → Color

/-- Model of the texture-slot access in `QuadLambertianAlbedoPixelShader::Shade`
(Shader.h, line 251): `state.mTextureSlots[fragIn.textureId]` — the slot table
is indexed directly with the fragment's textureId, with no clamping or bounds
check; an out-of-range index is an out-of-bounds access, modelled as `none`. -/
def textureSlotAccess (slots : List TextureSlot) (textureId : ℤ) : Option TextureSlot :=
  if h : 0 ≤ textureId ∧ textureId.toNat < slots.length then
    some (slots.get ⟨textureId.toNat, h.2⟩)
  else none

/-- The albedo-sampling loop of `QuadLambertianAlbedoPixelShader::Shade`
(Shader.h, lines 248-255): each of the four quad lanes samples the slot at
index `fragIn.textureId` at that lane's texCoord. -/
def sampleQuadAlbedo (slots : List TextureSlot) (textureId : ℤ)
    (texCoord : Fin 4 → ℚ × ℚ) : Option (Fin 4 → Color) :=
  (textureSlotAccess slots textureId).map (fun slot => fun i => slot (texCoord i))

/-- Renderer configuration state relevant to `SetMSAAMode`: screen size, the
render state's `MultiSampleLevel`, and the level the framebuffer's sample
buffers were last (re)built with. -/
structure RendererConfig where
  width : ℕ
  height : ℕ
  msaaLevel : ℤ
  fbSampleLevel : ℤ
deriving DecidableEq

/-- Modelled from the spec: `FrameBuffer::Resize` (implementation outside the
provided sources) rebuilds the framebuffer and its per-sample buffers for the
given size and multi-sample level (§6: `setMSAA` "triggers internal resize of
sample buffers"). -/
def frameBufferResize (w h : ℕ) (level : ℤ) (r : RendererConfig) : RendererConfig :=
  { r with width := w, height := h, fbSampleLevel := level }

/-- Model of `Renderer::Resize` (Renderer.cpp, lines 64-83): resizes the
framebuffer with the render state's current `MultiSampleLevel` (the tile-grid
rebuild involves only the screen size and is omitted). -/
def rendererResize (w h : ℕ) (r : RendererConfig) : RendererConfig :=
  frameBufferResize w h r.msaaLevel r

/-- Model of `Renderer::SetMSAAMode` (Renderer.cpp, lines 94-98): stores the
given level into the render state, then resizes with the current width and
height.  The source performs no validation of the level and reports no error. -/
def setMSAAMode (sampleCountLog2 : ℤ) (r : RendererConfig) : RendererConfig :=
  let r1 := { r with msaaLevel := sampleCountLog2 }
  rendererResize r1.width r1.height r1

/-- A 4x4 rational matrix (models `Matrix`). -/
structure Matrix4 where
  m00 : ℚ
  m01 : ℚ
  m02 : ℚ
  m03 : ℚ
  m10 : ℚ
  m11 : ℚ
  m12 : ℚ
  m13 : ℚ
  m20 : ℚ
  m21 : ℚ
  m22 : ℚ
  m23 : ℚ
  m30 : ℚ
  m31 : ℚ
  m32 : ℚ
  m33 : ℚ
deriving DecidableEq

/-- `Matrix::TransformPoint(v, m)`: the external math library's 4x4
matrix–vector product (spec §1 treats vector/matrix primitives as libraries). -/
def transformPoint (m : Matrix4) (v : Vec4) : Vec4 :=
  ⟨m.m00 * v.x + m.m01 * v.y + m.m02 * v.z + m.m03 * v.w,
   m.m10 * v.x + m.m11 * v.y + m.m12 * v.z + m.m13 * v.w,
   m.m20 * v.x + m.m21 * v.y + m.m22 * v.z + m.m23 * v.w,
   m.m30 * v.x + m.m31 * v.y + m.m32 * v.z + m.m33 * v.w⟩

/-- An input vertex of the mesh's vertex buffer: position, normal, texCoord. -/
structure InputVertex where
  position : Vec3
  normal : Vec3
  texCoord : Vec2
deriving DecidableEq

/-- Model of `DefaultVertexShader::Execute` (Shader.h, lines 38-52): the output
vertex's `projectedPos` is ModelViewProj · (pos, 1); `position`, `normal` and
`texCoord` are passed through unchanged; `invW` keeps its constructor default 0
(it is assigned later, by the clipping stage). -/
def defaultVertexShaderExecute (mvp : Matrix4) (vin : InputVertex) : ProjectedVertex :=
  { projectedPos := transformPoint mvp ⟨vin.position.x, vin.position.y, vin.position.z, 1⟩
    invW := 0
    position := vin.position
    normal := vin.normal
    texCoord := vin.texCoord }

/-- Model of `Renderer::VertexProcessing` (Renderer.cpp, lines 120-127): the
output buffer is resized to the input's vertex count and the loop writes entry
i from input vertex i alone, so the stage is the per-vertex map of the vertex
shader over the input buffer. -/
def vertexProcessing (mvp : Matrix4) (buf : List InputVertex) : List ProjectedVertex :=
  buf.map (defaultVertexShaderExecute mvp)

/-- Model of `Tile::TriangleRef`.  Modelled from the spec for the parts whose
definition is outside the provided sources (§3, §4.4, §4.5): a reference
carries the triangle index into the worker's raster-triangle buffer, one
trivial-accept bit per edge (left false on the small-bbox binning path) and the
`big` flag; the reference is trivially accepted when all three accept bits are
set. -/
structure TriangleRef where
  triId : ℕ
  acceptBit0 : Bool
  acceptBit1 : Bool
  acceptBit2 : Bool
  big : Bool
deriving DecidableEq

/-- Modelled from the spec (§4.5): a reference is trivially accepted when all
three edges' tile-corner accept bits are 1. -/
def TriangleRef.trivialAccept (r : TriangleRef) : Bool :=
  r.acceptBit0 && r.acceptBit1 && r.acceptBit2

/-- Modelled from the spec (§4.4): `Tile::TriangleRef(i)`, the constructor used
on the small-bbox binning path — no accept bits, `big = false`. -/
def TriangleRef.small (i : ℕ) : TriangleRef := ⟨i, false, false, false, false⟩

/-- The rasterization routine `Renderer::RasterizeTile` dispatches a triangle
reference to (Rasterizer implementation outside the provided sources). -/
inductive RasterMethod where
  | trivialWalk : ℕ → RasterMethod
  | coarse : ℕ → RasterMethod
  | fine : ℕ → RasterMethod
deriving DecidableEq

/-- The dispatch performed by the body of `Renderer::RasterizeTile`'s inner
loop (Renderer.cpp, lines 254-266) for one triangle reference: a trivially
accepted reference goes to `TrivialAcceptTriangle` (and the loop continues);
otherwise `CoarseRasterize` when `HierarchicalRasterize` is on and the
reference is big, else `FineRasterize`. -/
def dispatchRef (hier : Bool) (r : TriangleRef) : RasterMethod :=
  if r.trivialAccept then RasterMethod.trivialWalk r.triId
  else if hier && r.big then RasterMethod.coarse r.triId
  else RasterMethod.fine r.triId

/-- The outer worker loop of `Renderer::RasterizeTile` (Renderer.cpp, lines
250-268), processing workers 0, 1, …, k−1 in order and each worker's reference
list in order; the result is the sequence of rasterization dispatches. -/
def rasterizeTileLoop (hier : Bool) (refs : ℕ → List TriangleRef) : ℕ → List RasterMethod
  | 0 => []
  | k + 1 => rasterizeTileLoop hier refs k ++ (refs k).map (dispatchRef hier)

/-- Model of `Renderer::RasterizeTile`: the dispatch sequence over all
`numCores` workers. -/
def rasterizeTile (hier : Bool) (numCores : ℕ) (refs : ℕ → List TriangleRef) :
    List RasterMethod :=
  rasterizeTileLoop hier refs numCores

/-- The per-sample color buffer, indexed by (x, y, sampleId). -/
abbrev SampleBuffer := ℕ × ℕ × ℕ → Color

/-- Modelled from the spec: `FrameBuffer::SetPixel(c, x, y, sId)`
(implementation outside the provided sources) stores color c into the
per-sample color buffer at position (x, y, sId) (§4.7). -/
def setPixel (c : Color) (x y sId : ℕ) (buf : SampleBuffer) : SampleBuffer :=
  fun p => if p = (x, y, sId) then c else buf p

/-- The quad-fragment fields read by `Renderer::UpdateFrameBuffer`: quad origin
(x, y) and the coverage mask (the remaining `QuadFragment` fields feed earlier
stages only). -/
structure QuadFragmentData where
  x : ℕ
  y : ℕ
  coverageMask : CoverageMask

/-- The four quad pixel offsets, in coverage-bit order TL, TR, BL, BR:
(0,0), (1,0), (0,1), (1,1). -/
def quadOffset : Fin 4 → ℕ × ℕ
  | 0 => (0, 0)
  | 1 => (1, 0)
  | 2 => (0, 1)
  | 3 => (1, 1)

/-- One sample iteration of the per-fragment loop of
`Renderer::UpdateFrameBuffer` (Renderer.cpp, lines 312-345): with
`maskShift = sId << 2`, pixel p of the quad (p = 0,1,2,3 at offsets (0,0),
(1,0), (0,1), (1,1)) is stored to the sample buffer at
(x + dx, y + dy, sId) exactly when coverage bit `maskShift + p` is set; the
stored RGB is lane p of the quad's shading result. -/
def writeFragmentSample (colors : Fin 4 → Color) (frag : QuadFragmentData)
    (sId : ℕ) (buf : SampleBuffer) : SampleBuffer :=
  let maskShift := sId <<< 2
  let buf0 := if frag.coverageMask.GetBit (maskShift + 0) ≠ 0 then
      setPixel (colors 0) frag.x frag.y sId buf else buf
  let buf1 := if frag.coverageMask.GetBit (maskShift + 1) ≠ 0 then
      setPixel (colors 1) (frag.x + 1) frag.y sId buf0 else buf0
  let buf2 := if frag.coverageMask.GetBit (maskShift + 2) ≠ 0 then
      setPixel (colors 2) frag.x (frag.y + 1) sId buf1 else buf1
  if frag.coverageMask.GetBit (maskShift + 3) ≠ 0 then
    setPixel (colors 3) (frag.x + 1) (frag.y + 1) sId buf2 else buf2

/-- The per-fragment sample loop of `Renderer::UpdateFrameBuffer`
(`for sId in 0..sampleCount-1`). -/
def updateFragment (sampleCount : ℕ) (colors : Fin 4 → Color)
    (frag : QuadFragmentData) (buf : SampleBuffer) : SampleBuffer :=
  (List.range sampleCount).foldl (fun b sId => writeFragmentSample colors frag sId b) buf

/-- The per-tile fragment loop of `Renderer::UpdateFrameBuffer` (Renderer.cpp,
lines 309-346): the tile's fragment buffer is walked in append order, each
fragment paired with its shading result from `tiledShadingResult`. -/
def updateTileFragments (sampleCount : ℕ)
    (frags : List (QuadFragmentData × (Fin 4 → Color))) (buf : SampleBuffer) : SampleBuffer :=
  frags.foldl (fun b fc => updateFragment sampleCount fc.2 fc.1 b) buf

/-- Modelled from the spec (§3): `Tile::SIZE_LOG_2` — tiles are 64 pixels on a
side (the constant lives outside the provided sources). -/
def SIZE_LOG_2 : ℕ := 6

/-- The binning shift `Tile::SIZE_LOG_2 + 4` (Renderer.cpp, line 161): tile
size in fixed-point units (4 sub-pixel bits). -/
def binShift : ℕ := SIZE_LOG_2 + 4

/-- Model of `RasterTriangle` — the fields the binner reads: the three
fixed-point screen vertices, the edge coefficients, and the per-edge
reject/accept corner codes, each in {0,1,2,3} encoding the block-corner offset
(code % 2, code / 2). -/
structure RasterTriangle where
  v0 : ℤ × ℤ
  v1 : ℤ × ℤ
  v2 : ℤ × ℤ
  B0 : ℤ
  C0 : ℤ
  B1 : ℤ
  C1 : ℤ
  B2 : ℤ
  C2 : ℤ
  rejectCorner0 : ℕ
  rejectCorner1 : ℕ
  rejectCorner2 : ℕ
  acceptCorner0 : ℕ
  acceptCorner1 : ℕ
  acceptCorner2 : ℕ
deriving DecidableEq

/-- Modelled from the spec (§3, glossary): `RasterTriangle::EdgeFunc0` — the
definition lives outside the provided sources;
EdgeFunc_i(p) = B_i·(p.x − v_i.x) + C_i·(p.y − v_i.y). -/
def RasterTriangle.EdgeFunc0 (t : RasterTriangle) (p : ℤ × ℤ) : ℤ :=
  t.B0 * (p.1 - t.v0.1) + t.C0 * (p.2 - t.v0.2)

/-- Modelled from the spec: `RasterTriangle::EdgeFunc1`. -/
def RasterTriangle.EdgeFunc1 (t : RasterTriangle) (p : ℤ × ℤ) : ℤ :=
  t.B1 * (p.1 - t.v1.1) + t.C1 * (p.2 - t.v1.2)

/-- Modelled from the spec: `RasterTriangle::EdgeFunc2`. -/
def RasterTriangle.EdgeFunc2 (t : RasterTriangle) (p : ℤ × ℤ) : ℤ :=
  t.B2 * (p.1 - t.v2.1) + t.C2 * (p.2 - t.v2.2)

/-- A corner of tile (x, y) in fixed-point coordinates, for a corner code in
{0,1,2,3} (Renderer.cpp, lines 189-201 and 206-218): offset (code % 2,
code / 2) is added to the tile coordinate and the result shifted left by
`binShift`. -/
def cornerAt (x y : ℤ) (code : ℕ) : ℤ × ℤ :=
  ((x + (code % 2 : ℕ)) <<< (binShift : ℤ), (y + (code / 2 : ℕ)) <<< (binShift : ℤ))

/-- `minX` of the binning loop (Renderer.cpp, line 168): the minimum
fixed-point x coordinate shifted right by `binShift`, clamped below by 0. -/
def binMinX (t : RasterTriangle) : ℤ :=
  max 0 (min t.v0.1 (min t.v1.1 t.v2.1) >>> binShift)

/-- `maxX` of the binning loop (line 169): the maximum fixed-point x
coordinate shifted right by `binShift`, clamped above by tileDim.x − 1. -/
def binMaxX (td : ℤ × ℤ) (t : RasterTriangle) : ℤ :=
  min (td.1 - 1) (max t.v0.1 (max t.v1.1 t.v2.1) >>> binShift)

/-- `minY` of the binning loop (line 170). -/
def binMinY (t : RasterTriangle) : ℤ :=
  max 0 (min t.v0.2 (min t.v1.2 t.v2.2) >>> binShift)

/-- `maxY` of the binning loop (line 171). -/
def binMaxY (td : ℤ × ℤ) (t : RasterTriangle) : ℤ :=
  min (td.2 - 1) (max t.v0.2 (max t.v1.2 t.v2.2) >>> binShift)

/-- The tile-reject test of the big-bbox binning path (Renderer.cpp, line 203):
some edge function evaluated at that edge's reject corner of the tile is
strictly negative. -/
def tileRejected (t : RasterTriangle) (x y : ℤ) : Bool :=
  decide (t.EdgeFunc0 (cornerAt x y t.rejectCorner0) < 0) ||
  decide (t.EdgeFunc1 (cornerAt x y t.rejectCorner1) < 0) ||
  decide (t.EdgeFunc2 (cornerAt x y t.rejectCorner2) < 0)

/-- The reference added on the big-bbox binning path (Renderer.cpp, lines
220-224): the three accept bits are the edge functions evaluated at the accept
corners being ≥ 0, and `big = true`. -/
def bigRefAt (t : RasterTriangle) (i : ℕ) (x y : ℤ) : TriangleRef :=
  ⟨i, decide (t.EdgeFunc0 (cornerAt x y t.acceptCorner0) ≥ 0),
      decide (t.EdgeFunc1 (cornerAt x y t.acceptCorner1) ≥ 0),
      decide (t.EdgeFunc2 (cornerAt x y t.acceptCorner2) ≥ 0), true⟩

/-- The integers from lo to hi inclusive (empty when hi < lo) — the iteration
space of a C-style `for (a = lo; a <= hi; a++)` loop. -/
def intRange (lo hi : ℤ) : List ℤ :=
  (List.range (hi + 1 - lo).toNat).map (fun k : ℕ => lo + (k : ℤ))

/-- Model of the per-triangle binning of `Renderer::TiledRasterization`
(Renderer.cpp, lines 164-228), as the list of (tileX, tileY, reference)
additions it performs, in loop order: compute the clamped tile-space AABB; if
it spans at most 2×2 tiles, add a small (big = false) reference to every tile
in the box; otherwise visit every tile in the box, skip it when the
reject-corner test fails, and add a big reference carrying the accept bits. -/
def binTriangle (td : ℤ × ℤ) (i : ℕ) (t : RasterTriangle) :
    List (ℤ × ℤ × TriangleRef) :=
  let minX := binMinX t
  let maxX := binMaxX td t
  let minY := binMinY t
  let maxY := binMaxY td t
  if maxX - minX < 2 ∧ maxY - minY < 2 then
    (intRange minY maxY).flatMap (fun y =>
      (intRange minX maxX).map (fun x => (x, y, TriangleRef.small i)))
  else
    (intRange minY maxY).flatMap (fun y =>
      (intRange minX maxX).filterMap (fun x =>
        if tileRejected t x y then none
        else some (x, y, bigRefAt t i x y)))

/-- A mesh, as read by `Renderer::RenderMesh` through the interfaces of §6:
vertex buffer, index buffer, per-triangle texture ids, texture slot table. -/
structure Mesh where
  vertices : List InputVertex
  indices : List (ℕ × ℕ × ℕ)
  textureIds : List ℕ
  textures : List TextureSlot

/-- The render-state settings read by the pipeline stages (§4.1): transform
matrices, multi-sample level and feature flags.  Mutated only between frames. -/
structure PipelineSettings where
  modelView : Matrix4
  modelViewInv : Matrix4
  proj : Matrix4
  modelViewProj : Matrix4
  raster : Matrix4
  multiSampleLevel : ℤ
  hierarchicalRasterize : Bool
  backFaceCulling : Bool
  frontCounterClockwise : Bool
  depthTest : Bool

/-- The `RenderStates` singleton's mutable contents: the settings, the current
texture slot table (set per draw by `RenderMesh`) and the frame counter. -/
structure RenderStatesData where
  settings : PipelineSettings
  textureSlots : List TextureSlot
  frameCount : ℕ

/-- The framebuffer: dimensions and sample count, per-sample color and depth
buffers, and the resolved color buffer (§3).  Depth +∞ is modelled as `none`. -/
structure FrameBufferData where
  width : ℕ
  height : ℕ
  sampleCount : ℕ
  sampleColor : ℕ × ℕ × ℕ → Color
  sampleDepth : ℕ × ℕ × ℕ → Option ℚ
  resolved : ℕ × ℕ → Color

/-- Modelled from the spec (§3 Lifecycle): `FrameBuffer::Clear` (implementation
outside the provided sources) resets the per-sample color and depth buffers to
(clearColor, +∞); dimensions are untouched, and the resolved buffer is
overwritten only at the resolve step. -/
def clearFrameBuffer (clearCol : Color) (fb : FrameBufferData) : FrameBufferData :=
  { fb with sampleColor := fun _ => clearCol, sampleDepth := fun _ => none }

/-- Output of the clipping stage: the per-worker projected-vertex buffers and
raster-triangle buffers (worker sharding flattened). -/
abbrev ClipOutput := List ProjectedVertex × List RasterTriangle

/-- The quad fragments emitted by tile rasterization, in tile/append order. -/
abbrev FragmentList := List QuadFragmentData

/-- The per-fragment quad shading results (`tiledShadingResult`). -/
abbrev ShadingResults := List (Fin 4 → Color)

/-- Modelled from the spec: the pipeline stages of `Renderer::RenderMesh` whose
implementations are outside the provided sources — `Clipper::Clip` plus the
invW fix-up (§4.3), the binning/tile walk of the Rasterizer with its depth
test (§4.4–4.5), fragment shading with texture sampling (§4.6), and the
framebuffer update with resolve (§4.7) — together with the clear color used by
`FrameBuffer::Clear`.  Each stage is a pure function of exactly the data the
spec's stage contracts let it read; the spec's concurrency contract (§5:
fork-join stages, owner-partitioned writes, submission-order iteration within
a tile) is what makes each parallel stage a deterministic function of those
inputs, and the theorem below quantifies over every such family of stages. -/
structure ExternalStages where
  clearColor : Color
  clip : PipelineSettings → List ProjectedVertex → List (ℕ × ℕ × ℕ) → List ℕ → ClipOutput
  rasterize : PipelineSettings → ClipOutput → ℕ × ℕ × ℕ →
    (ℕ × ℕ × ℕ → Option ℚ) → FragmentList × (ℕ × ℕ × ℕ → Option ℚ)
  shade : PipelineSettings → List TextureSlot → ClipOutput → FragmentList → ShadingResults
  updateResolve : ℕ × ℕ × ℕ → FragmentList → ShadingResults →
    (ℕ × ℕ × ℕ → Color) → ((ℕ × ℕ × ℕ → Color) × (ℕ × ℕ → Color))

/-- Model of `Renderer::RenderMesh` (Renderer.cpp, lines 100-118): clear the
framebuffer, point the render state's texture slots at the mesh's textures,
run vertex processing (the real model above), clipping, tiled rasterization,
fragment processing and the framebuffer update with resolve, then increment
`FrameCount`.  Returns the new render states and framebuffer. -/
def renderMesh (ext : ExternalStages) (mesh : Mesh)
    (states : RenderStatesData) (fb : FrameBufferData) :
    RenderStatesData × FrameBufferData :=
  let fb0 := clearFrameBuffer ext.clearColor fb
  let st := { states with textureSlots := mesh.textures }
  let projVerts := vertexProcessing st.settings.modelViewProj mesh.vertices
  let clipped := ext.clip st.settings projVerts mesh.indices mesh.textureIds
  let rast := ext.rasterize st.settings clipped (fb0.width, fb0.height, fb0.sampleCount)
    fb0.sampleDepth
  let shaded := ext.shade st.settings st.textureSlots clipped rast.1
  let updated := ext.updateResolve (fb0.width, fb0.height, fb0.sampleCount) rast.1 shaded
    fb0.sampleColor
  ({ st with frameCount := st.frameCount + 1 },
   { fb0 with sampleDepth := rast.2, sampleColor := updated.1, resolved := updated.2 })

/-- `Renderer::GetBackBuffer` (Renderer.cpp, lines 360-363): the resolved
color buffer. -/
def backBuffer (fb : FrameBufferData) : ℕ × ℕ → Color := fb.resolved

lemma shiftRight_five (i : ℕ) : i >>> 5 = i / 32 := by
  rw [Nat.shiftRight_eq_div_pow]

lemma and_thirtyone (i : ℕ) : i &&& 31 = i % 32 := by
  have h : (31 : ℕ) = 2 ^ 5 - 1 := by norm_num
  rw [h, Nat.and_pow_two_sub_one_eq_mod]

lemma one_shiftLeft_pow (s : ℕ) : (1 <<< s : ℕ) = 2 ^ s := by
  rw [Nat.shiftLeft_eq, one_mul]

lemma or_two_pow_and_two_pow_ne (a s t : ℕ) (h : s ≠ t) :
    (a ||| 2 ^ s) &&& 2 ^ t = a &&& 2 ^ t := by
  apply Nat.eq_of_testBit_eq
  intro k
  rcases eq_or_ne k t with rfl | hk
  · simp [Nat.testBit_and, Nat.testBit_or, Nat.testBit_two_pow, h]
  · simp [Nat.testBit_and, Nat.testBit_two_pow, Ne.symm hk]

lemma or_two_pow_and_self_ne_zero (a s : ℕ) : ((a ||| 2 ^ s) &&& 2 ^ s) ≠ 0 := by
  intro h0
  have h1 : ((a ||| 2 ^ s) &&& 2 ^ s).testBit s = true := by
    simp [Nat.testBit_and, Nat.testBit_or, Nat.testBit_two_pow]
  rw [h0] at h1
  simp at h1

lemma ne_zero_of_testBit {x s : ℕ} (h : x.testBit s = true) : x ≠ 0 := by
  intro h0
  rw [h0] at h
  simp at h

lemma word_setWord_self (m : CoverageMask) (id w : ℕ) :
    (m.setWord id w).word id = w := by
  rcases id with _ | _ | _ | id <;> rfl

lemma word_setWord_ne (m : CoverageMask) (id1 id2 w : ℕ) (h : id1 ≠ id2)
    (h1 : id1 < 4) (h2 : id2 < 4) :
    (m.setWord id1 w).word id2 = m.word id2 := by
  rcases id1 with _ | _ | _ | a <;> rcases id2 with _ | _ | _ | b <;>
    first
      | rfl
      | omega

lemma word_empty (id : ℕ) : CoverageMask.empty.word id = 0 := by
  rcases id with _ | _ | _ | id <;> rfl

lemma merge_setWord_ne_zero (m : CoverageMask) (id s w : ℕ) :
    (m.setWord id (w ||| 2 ^ s)).Merge ≠ 0 := by
  rcases id with _ | _ | _ | a <;>
    exact ne_zero_of_testBit (s := s)
      (by simp [CoverageMask.Merge, CoverageMask.setWord, Nat.testBit_or, Nat.testBit_two_pow])

lemma mem_intRange (lo hi a : ℤ) : a ∈ intRange lo hi ↔ lo ≤ a ∧ a ≤ hi := by
  unfold intRange
  simp only [List.mem_map, List.mem_range]
  constructor
  · rintro ⟨k, hk, rfl⟩
    omega
  · rintro ⟨h1, h2⟩
    exact ⟨(a - lo).toNat, by omega, by omega⟩

lemma shiftLeft_two (s : ℕ) : s <<< 2 = s * 4 := by
  rw [Nat.shiftLeft_eq]

lemma setPixel_at (c : Color) (x y s : ℕ) (b : SampleBuffer) :
    setPixel c x y s b (x, y, s) = c := by
  simp [setPixel]

lemma setPixel_ne (c : Color) (x y s : ℕ) (b : SampleBuffer) (q : ℕ × ℕ × ℕ)
    (h : q ≠ (x, y, s)) : setPixel c x y s b q = b q := by
  simp [setPixel, h]

lemma ite_setPixel_ne (cnd : Prop) [Decidable cnd] (c : Color) (x y s : ℕ)
    (b : SampleBuffer) (q : ℕ × ℕ × ℕ) (h : q ≠ (x, y, s)) :
    (if cnd then setPixel c x y s b else b) q = b q := by
  split
  · exact setPixel_ne c x y s b q h
  · rfl

lemma ite_setPixel_at (cnd : Prop) [Decidable cnd] (c : Color) (x y s : ℕ)
    (b : SampleBuffer) :
    (if cnd then setPixel c x y s b else b) (x, y, s) = if cnd then c else b (x, y, s) := by
  split
  · exact setPixel_at c x y s b
  · rfl

lemma writeFragmentSample_other_sample (colors : Fin 4 → Color)
    (frag : QuadFragmentData) (sId : ℕ) (b : SampleBuffer) (q : ℕ × ℕ × ℕ)
    (h : q.2.2 ≠ sId) : writeFragmentSample colors frag sId b q = b q := by
  have hq : ∀ x y : ℕ, q ≠ (x, y, sId) := by
    intro x y hxy
    apply h
    rw [hxy]
  simp only [writeFragmentSample]
  rw [ite_setPixel_ne _ _ _ _ _ _ _ (hq _ _), ite_setPixel_ne _ _ _ _ _ _ _ (hq _ _),
    ite_setPixel_ne _ _ _ _ _ _ _ (hq _ _), ite_setPixel_ne _ _ _ _ _ _ _ (hq _ _)]

lemma writeFragmentSample_own (colors : Fin 4 → Color) (frag : QuadFragmentData)
    (sId : ℕ) (b : SampleBuffer) (p : Fin 4) :
    writeFragmentSample colors frag sId b
        (frag.x + (quadOffset p).1, frag.y + (quadOffset p).2, sId)
      = if frag.coverageMask.GetBit (sId * 4 + p.val) ≠ 0 then colors p
        else b (frag.x + (quadOffset p).1, frag.y + (quadOffset p).2, sId) := by
  fin_cases p
  all_goals simp only [writeFragmentSample, quadOffset, shiftLeft_two, Nat.add_zero]
  · rw [ite_setPixel_ne _ _ _ _ _ _ _ (by simp [Prod.ext_iff]),
      ite_setPixel_ne _ _ _ _ _ _ _ (by simp [Prod.ext_iff]),
      ite_setPixel_ne _ _ _ _ _ _ _ (by simp [Prod.ext_iff]),
      ite_setPixel_at]
    rfl
  · rw [ite_setPixel_ne _ _ _ _ _ _ _ (by simp [Prod.ext_iff]),
      ite_setPixel_ne _ _ _ _ _ _ _ (by simp [Prod.ext_iff]),
      ite_setPixel_at,
      ite_setPixel_ne _ _ _ _ _ _ _ (by simp [Prod.ext_iff])]
    rfl
  · rw [ite_setPixel_ne _ _ _ _ _ _ _ (by simp [Prod.ext_iff]),
      ite_setPixel_at,
      ite_setPixel_ne _ _ _ _ _ _ _ (by simp [Prod.ext_iff]),
      ite_setPixel_ne _ _ _ _ _ _ _ (by simp [Prod.ext_iff])]
    rfl
  · rw [ite_setPixel_at,
      ite_setPixel_ne _ _ _ _ _ _ _ (by simp [Prod.ext_iff]),
      ite_setPixel_ne _ _ _ _ _ _ _ (by simp [Prod.ext_iff]),
      ite_setPixel_ne _ _ _ _ _ _ _ (by simp [Prod.ext_iff])]
    rfl

lemma updateFragment_succ (k : ℕ) (colors : Fin 4 → Color) (frag : QuadFragmentData)
    (buf : SampleBuffer) :
    updateFragment (k + 1) colors frag buf
      = writeFragmentSample colors frag k (updateFragment k colors frag buf) := by
  simp only [updateFragment, List.range_succ, List.foldl_append, List.foldl_cons,
    List.foldl_nil]

lemma updateFragment_other (n : ℕ) (colors : Fin 4 → Color) (frag : QuadFragmentData)
    (buf : SampleBuffer) (q : ℕ × ℕ × ℕ) (h : n ≤ q.2.2) :
    updateFragment n colors frag buf q = buf q := by
  induction n with
  | zero => rfl
  | succ k ih =>
      rw [updateFragment_succ]
      rw [writeFragmentSample_other_sample _ _ _ _ _ (by omega)]
      exact ih (by omega)

lemma updateFragment_at (n : ℕ) (colors : Fin 4 → Color) (frag : QuadFragmentData)
    (buf : SampleBuffer) (s : ℕ) (p : Fin 4) :
    s < n →
    updateFragment n colors frag buf
        (frag.x + (quadOffset p).1, frag.y + (quadOffset p).2, s)
      = if frag.coverageMask.GetBit (s * 4 + p.val) ≠ 0 then colors p
        else buf (frag.x + (quadOffset p).1, frag.y + (quadOffset p).2, s) := by
  induction n with
  | zero => omega
  | succ k ih =>
      intro hs
      rw [updateFragment_succ]
      rcases Nat.lt_succ_iff_lt_or_eq.mp hs with hlt | heq
      · rw [writeFragmentSample_other_sample _ _ _ _ _ (by simp; omega)]
        exact ih hlt
      · subst heq
        rw [writeFragmentSample_own]
        rw [updateFragment_other _ _ _ _ _ (by simp)]

lemma fragmentInterpolate_vertex0 (v0 v1 v2 : ProjectedVertex) (h0 : v0.invW ≠ 0) :
    fragmentInterpolate v0 v1 v2 1 0 = (v0.position, v0.normal, v0.texCoord) := by
  unfold fragmentInterpolate
  simp only [smul3, add3, smul2, add2, Prod.mk.injEq]
  refine ⟨?_, ?_, ?_⟩ <;> ext <;> field_simp

lemma fragmentInterpolate_vertex1 (v0 v1 v2 : ProjectedVertex) (h1 : v1.invW ≠ 0) :
    fragmentInterpolate v0 v1 v2 0 1 = (v1.position, v1.normal, v1.texCoord) := by
  unfold fragmentInterpolate
  simp only [smul3, add3, smul2, add2, Prod.mk.injEq]
  refine ⟨?_, ?_, ?_⟩ <;> ext <;> field_simp

lemma fragmentInterpolate_vertex2 (v0 v1 v2 : ProjectedVertex) (_h2 : v2.invW ≠ 0) :
    fragmentInterpolate v0 v1 v2 0 0 = (v2.position, v2.normal, v2.texCoord) := by
  unfold fragmentInterpolate
  simp only [smul3, add3, smul2, add2, Prod.mk.injEq]
  refine ⟨?_, ?_, ?_⟩ <;> ext <;> field_simp

lemma quadInterpolate_lane (v0 v1 v2 : ProjectedVertex) (b0 b1 : Fin 4 → ℚ) (i : Fin 4) :
    ((quadInterpolate v0 v1 v2 b0 b1).1 i,
     (quadInterpolate v0 v1 v2 b0 b1).2.1 i,
     (quadInterpolate v0 v1 v2 b0 b1).2.2 i)
      = fragmentInterpolate v0 v1 v2 (b0 i) (b1 i) := rfl

/-- C4: `QuadFragment::Interpolate` computes, lane-wise, λ2 = 1 − λ0 − λ1,
scales each λi by the corresponding vertex's invW, renormalizes by the sum of
the scaled weights, and — whenever every vertex has nonzero invW (nonzero w) —
evaluating at a vertex, (λ0,λ1) = (1,0), (0,1) or (0,0), reproduces that
vertex's position, normal and texCoord attributes exactly (exact arithmetic
over ℚ). -/
theorem C4_perspective_interpolation_vertex_identity
    (v0 v1 v2 : ProjectedVertex) (b0 b1 : Fin 4 → ℚ) (i : Fin 4)
    (h0 : v0.invW ≠ 0) (h1 : v1.invW ≠ 0) (h2 : v2.invW ≠ 0) :
    (∀ j : Fin 4,
      ((quadInterpolate v0 v1 v2 b0 b1).1 j,
       (quadInterpolate v0 v1 v2 b0 b1).2.1 j,
       (quadInterpolate v0 v1 v2 b0 b1).2.2 j)
        = fragmentInterpolate v0 v1 v2 (b0 j) (b1 j)) ∧
    (b0 i = 1 → b1 i = 0 →
      ((quadInterpolate v0 v1 v2 b0 b1).1 i = v0.position ∧
       (quadInterpolate v0 v1 v2 b0 b1).2.1 i = v0.normal ∧
       (quadInterpolate v0 v1 v2 b0 b1).2.2 i = v0.texCoord)) ∧
    (b0 i = 0 → b1 i = 1 →
      ((quadInterpolate v0 v1 v2 b0 b1).1 i = v1.position ∧
       (quadInterpolate v0 v1 v2 b0 b1).2.1 i = v1.normal ∧
       (quadInterpolate v0 v1 v2 b0 b1).2.2 i = v1.texCoord)) ∧
    (b0 i = 0 → b1 i = 0 →
      ((quadInterpolate v0 v1 v2 b0 b1).1 i = v2.position ∧
       (quadInterpolate v0 v1 v2 b0 b1).2.1 i = v2.normal ∧
       (quadInterpolate v0 v1 v2 b0 b1).2.2 i = v2.texCoord)) := by
  refine ⟨fun j => quadInterpolate_lane v0 v1 v2 b0 b1 j, ?_, ?_, ?_⟩
  · intro e0 e1
    have h := quadInterpolate_lane v0 v1 v2 b0 b1 i
    rw [e0, e1, fragmentInterpolate_vertex0 v0 v1 v2 h0] at h
    exact ⟨congrArg Prod.fst h, congrArg (fun p => p.2.1) h, congrArg (fun p => p.2.2) h⟩
  · intro e0 e1
    have h := quadInterpolate_lane v0 v1 v2 b0 b1 i
    rw [e0, e1, fragmentInterpolate_vertex1 v0 v1 v2 h1] at h
    exact ⟨congrArg Prod.fst h, congrArg (fun p => p.2.1) h, congrArg (fun p => p.2.2) h⟩
  · intro e0 e1
    have h := quadInterpolate_lane v0 v1 v2 b0 b1 i
    rw [e0, e1, fragmentInterpolate_vertex2 v0 v1 v2 h2] at h
    exact ⟨congrArg Prod.fst h, congrArg (fun p => p.2.1) h, congrArg (fun p => p.2.2) h⟩

/-- Witness for C4 at a concrete triangle with invW = (1, 1/2, 1/3) and lane-0
barycentrics (1,0): the interpolated attributes at lane 0 equal vertex 0's. -/
theorem C4_perspective_interpolation_vertex_identity_witness :
    ((quadInterpolate
        ⟨⟨0,0,0,1⟩, 1, ⟨1,2,3⟩, ⟨0,0,1⟩, ⟨0,0⟩⟩
        ⟨⟨0,0,0,2⟩, 1/2, ⟨4,5,6⟩, ⟨0,1,0⟩, ⟨1,0⟩⟩
        ⟨⟨0,0,0,3⟩, 1/3, ⟨7,8,9⟩, ⟨1,0,0⟩, ⟨0,1⟩⟩
        (fun _ => 1) (fun _ => 0)).1 0 = ⟨1,2,3⟩) :=
  ((C4_perspective_interpolation_vertex_identity
      ⟨⟨0,0,0,1⟩, 1, ⟨1,2,3⟩, ⟨0,0,1⟩, ⟨0,0⟩⟩
      ⟨⟨0,0,0,2⟩, 1/2, ⟨4,5,6⟩, ⟨0,1,0⟩, ⟨1,0⟩⟩
      ⟨⟨0,0,0,3⟩, 1/3, ⟨7,8,9⟩, ⟨1,0,0⟩, ⟨0,1⟩⟩
      (fun _ => 1) (fun _ => 0) 0
      (by norm_num) (by norm_num) (by norm_num)).2.1 rfl rfl).1

/-- C9: a freshly constructed `CoverageMask` has every bit clear and zero
`Merge()`; for every i < 128, `SetBit(i)` makes `GetBit(i)` and `Merge()`
nonzero, and leaves `GetBit(j)` unchanged for every j ≠ i below 128. -/
theorem C9_coverageMask_bit_ops :
    (∀ i, i < 128 → CoverageMask.empty.GetBit i = 0) ∧
    CoverageMask.empty.Merge = 0 ∧
    ∀ (m : CoverageMask) (i : ℕ), i < 128 →
      ((m.SetBit i).GetBit i ≠ 0 ∧
       (m.SetBit i).Merge ≠ 0 ∧
       ∀ j, j < 128 → j ≠ i → (m.SetBit i).GetBit j = m.GetBit j) := by
  refine ⟨?_, rfl, ?_⟩
  · intro i _
    simp [CoverageMask.GetBit, word_empty]
  · intro m i hi
    refine ⟨?_, ?_, ?_⟩
    · simp only [CoverageMask.SetBit, CoverageMask.GetBit, one_shiftLeft_pow]
      rw [word_setWord_self]
      exact or_two_pow_and_self_ne_zero _ _
    · simp only [CoverageMask.SetBit, one_shiftLeft_pow]
      exact merge_setWord_ne_zero _ _ _ _
    · intro j hj hne
      simp only [CoverageMask.SetBit, CoverageMask.GetBit, one_shiftLeft_pow]
      rcases eq_or_ne (i >>> 5) (j >>> 5) with he | he
      · rw [← he, word_setWord_self]
        apply or_two_pow_and_two_pow_ne
        rw [and_thirtyone, and_thirtyone]
        rw [shiftRight_five, shiftRight_five] at he
        omega
      · rw [word_setWord_ne m _ _ _ he ?_ ?_]
        · rw [shiftRight_five]; omega
        · rw [shiftRight_five]; omega

/-- Witness for C9 at the concrete mask (3,0,9,0): setting bit 5 makes bit 5
and the merge nonzero and leaves bit 70 unchanged. -/
theorem C9_coverageMask_bit_ops_witness :
    (CoverageMask.SetBit ⟨3, 0, 9, 0⟩ 5).GetBit 5 ≠ 0 ∧
    (CoverageMask.SetBit ⟨3, 0, 9, 0⟩ 5).Merge ≠ 0 ∧
    (CoverageMask.SetBit ⟨3, 0, 9, 0⟩ 5).GetBit 70 = CoverageMask.GetBit ⟨3, 0, 9, 0⟩ 70 :=
  ⟨(C9_coverageMask_bit_ops.2.2 ⟨3, 0, 9, 0⟩ 5 (by norm_num)).1,
   (C9_coverageMask_bit_ops.2.2 ⟨3, 0, 9, 0⟩ 5 (by norm_num)).2.1,
   (C9_coverageMask_bit_ops.2.2 ⟨3, 0, 9, 0⟩ 5 (by norm_num)).2.2 70 (by norm_num) (by norm_num)⟩

/-- C10: constructing `CompileError(msg, file, line, column)` yields an object
whose FileName, LineNumber and ColumnNumber equal the arguments but whose
ErrorMsg is the empty (default-constructed) string; the msg argument is never
stored (two constructions differing only in msg are equal). -/
theorem C10_compileError_drops_message (msg msg2 file : String) (line coloum : ℤ) :
    (CompileError.construct msg file line coloum).FileName = file ∧
    (CompileError.construct msg file line coloum).LineNumber = line ∧
    (CompileError.construct msg file line coloum).ColumnNumber = coloum ∧
    (CompileError.construct msg file line coloum).ErrorMsg = "" ∧
    CompileError.construct msg file line coloum = CompileError.construct msg2 file line coloum :=
  ⟨rfl, rfl, rfl, rfl, rfl⟩

/-- C1 counterexample: with a one-entry slot table and the out-of-range texture
id 1, the albedo shader's texture lookup is an out-of-bounds access (`none`);
it does not sample slot 0 as the claim states. -/
theorem C1_counterexample :
    sampleQuadAlbedo [fun _ => (1, 1, 1)] 1 (fun _ => (0, 0)) = none ∧
    sampleQuadAlbedo [fun _ => (1, 1, 1)] 1 (fun _ => (0, 0)) ≠
      some (fun _ => (1, 1, 1)) := by
  constructor
  · simp [sampleQuadAlbedo, textureSlotAccess]
  · simp [sampleQuadAlbedo, textureSlotAccess]

/-- C1 amended: `QuadLambertianAlbedoPixelShader::Shade` indexes the texture
slot table directly with the fragment's textureId and performs no clamping: an
in-range id samples the slot at that index on all four quad lanes, and an
out-of-range id makes the lookup an out-of-bounds access (no slot is sampled;
the shading operation may crash) rather than using slot 0. -/
theorem C1_amended_no_texture_id_clamp (slots : List TextureSlot) (textureId : ℤ)
    (texCoord : Fin 4 → ℚ × ℚ) :
    (∀ h : 0 ≤ textureId ∧ textureId.toNat < slots.length,
      sampleQuadAlbedo slots textureId texCoord
        = some (fun i => slots.get ⟨textureId.toNat, h.2⟩ (texCoord i))) ∧
    (¬(0 ≤ textureId ∧ textureId.toNat < slots.length) →
      sampleQuadAlbedo slots textureId texCoord = none) := by
  constructor
  · intro h
    simp [sampleQuadAlbedo, textureSlotAccess, h]
  · intro h
    simp [sampleQuadAlbedo, textureSlotAccess, h]

/-- Witness for the amended C1: a singleton slot table sampled with the
in-range id 0 yields the slot's color on every lane; with the out-of-range id
5 the lookup fails. -/
theorem C1_amended_no_texture_id_clamp_witness :
    sampleQuadAlbedo [fun _ => ((2 : ℚ), (3 : ℚ), (4 : ℚ))] 0 (fun _ => (0, 0))
      = some (fun _ => (2, 3, 4)) ∧
    sampleQuadAlbedo [fun _ => ((2 : ℚ), (3 : ℚ), (4 : ℚ))] 5 (fun _ => (0, 0)) = none :=
  ⟨(C1_amended_no_texture_id_clamp [fun _ => ((2 : ℚ), (3 : ℚ), (4 : ℚ))] 0
      (fun _ => (0, 0))).1 ⟨by decide, by decide⟩,
   (C1_amended_no_texture_id_clamp [fun _ => ((2 : ℚ), (3 : ℚ), (4 : ℚ))] 5
      (fun _ => (0, 0))).2 (by decide)⟩

/-- C2 counterexample: calling `SetMSAAMode` with the unsupported level 7 on a
640x480 configuration does not fail: the level is stored into the render state
and the framebuffer's sample buffers are rebuilt with level 7 — no error is
surfaced and the next frame would run at that level, contradicting the claim
that the call fails fast at the boundary. -/
theorem C2_counterexample :
    setMSAAMode 7 ⟨640, 480, 0, 0⟩ = ⟨640, 480, 7, 7⟩ := rfl

/-- C2 amended: `SetMSAAMode` performs no validation: for every level,
supported or not, it stores the level into `MultiSampleLevel` and immediately
resizes the framebuffer's sample buffers with that level, surfacing no error. -/
theorem C2_amended_setMSAA_no_validation (lvl : ℤ) (r : RendererConfig) :
    setMSAAMode lvl r = ⟨r.width, r.height, lvl, lvl⟩ := rfl

/-- C7: vertex processing maps an N-vertex input buffer to an N-entry
projected-vertex buffer where entry i's projectedPos is ModelViewProj · (pos_i, 1)
and the model-space position, normal and texCoord of vertex i pass through
unchanged. -/
theorem C7_vertexProcessing_spec (mvp : Matrix4) (buf : List InputVertex) :
    (vertexProcessing mvp buf).length = buf.length ∧
    ∀ (i : ℕ) (h : i < (vertexProcessing mvp buf).length) (h2 : i < buf.length),
      ((vertexProcessing mvp buf).get ⟨i, h⟩).projectedPos
          = transformPoint mvp ⟨(buf.get ⟨i, h2⟩).position.x, (buf.get ⟨i, h2⟩).position.y,
              (buf.get ⟨i, h2⟩).position.z, 1⟩ ∧
      ((vertexProcessing mvp buf).get ⟨i, h⟩).position = (buf.get ⟨i, h2⟩).position ∧
      ((vertexProcessing mvp buf).get ⟨i, h⟩).normal = (buf.get ⟨i, h2⟩).normal ∧
      ((vertexProcessing mvp buf).get ⟨i, h⟩).texCoord = (buf.get ⟨i, h2⟩).texCoord := by
  refine ⟨List.length_map _ _, ?_⟩
  intro i h h2
  refine ⟨?_, ?_, ?_, ?_⟩ <;>
    simp [vertexProcessing, List.get_eq_getElem, List.getElem_map, defaultVertexShaderExecute]

/-- Witness for C7 at the identity matrix and a single concrete vertex. -/
theorem C7_vertexProcessing_spec_witness :
    ((vertexProcessing ⟨1, 0, 0, 0, 0, 1, 0, 0, 0, 0, 1, 0, 0, 0, 0, 1⟩
        [⟨⟨2, 3, 4⟩, ⟨0, 0, 1⟩, ⟨5, 6⟩⟩]).get ⟨0, by decide⟩).position = ⟨2, 3, 4⟩ :=
  ((C7_vertexProcessing_spec ⟨1, 0, 0, 0, 0, 1, 0, 0, 0, 0, 1, 0, 0, 0, 0, 1⟩
      [⟨⟨2, 3, 4⟩, ⟨0, 0, 1⟩, ⟨5, 6⟩⟩]).2 0 (by decide) (by decide)).2.1

/-- C8: `RasterizeTile` processes triangle references in worker order 0..K−1
and, within each worker, in list (clipper-emission) order; a reference marked
trivially accepted goes to the full-tile walk, the rest are coarse-rasterized
exactly when `HierarchicalRasterize` is enabled and the reference's big flag
is set, and fine-rasterized otherwise. -/
theorem C8_rasterizeTile_order_and_dispatch (hier : Bool) (numCores : ℕ)
    (refs : ℕ → List TriangleRef) :
    rasterizeTile hier numCores refs
      = (List.range numCores).flatMap (fun coreId => (refs coreId).map (dispatchRef hier)) ∧
    ∀ r : TriangleRef,
      (r.trivialAccept = true → dispatchRef hier r = RasterMethod.trivialWalk r.triId) ∧
      (r.trivialAccept = false → hier = true → r.big = true →
        dispatchRef hier r = RasterMethod.coarse r.triId) ∧
      (r.trivialAccept = false → (hier = false ∨ r.big = false) →
        dispatchRef hier r = RasterMethod.fine r.triId) := by
  constructor
  · induction numCores with
    | zero => rfl
    | succ k ih =>
        show rasterizeTileLoop hier refs (k + 1) = _
        rw [show rasterizeTileLoop hier refs (k + 1)
            = rasterizeTileLoop hier refs k ++ (refs k).map (dispatchRef hier) from rfl]
        rw [show rasterizeTileLoop hier refs k = rasterizeTile hier k refs from rfl, ih]
        rw [List.range_succ, List.flatMap_append]
        simp
  · intro r
    refine ⟨?_, ?_, ?_⟩
    · intro h
      simp [dispatchRef, h]
    · intro h1 h2 h3
      simp [dispatchRef, h1, h2, h3]
    · intro h1 h2
      rcases h2 with h2 | h2 <;> simp [dispatchRef, h1, h2]

/-- Witness for C8: a two-worker tile with one trivially accepted, one big and
one small reference dispatches, in submission order, to the tile walk, the
coarse rasterizer and the fine rasterizer. -/
theorem C8_rasterizeTile_order_and_dispatch_witness :
    rasterizeTile true 2
        (fun c => if c = 0 then
          [⟨0, true, true, true, false⟩, ⟨1, false, false, false, true⟩]
          else [⟨2, false, true, true, false⟩])
      = [RasterMethod.trivialWalk 0, RasterMethod.coarse 1, RasterMethod.fine 2] ∧
    dispatchRef true ⟨1, false, false, false, true⟩ = RasterMethod.coarse 1 ∧
    dispatchRef true ⟨2, false, true, true, false⟩ = RasterMethod.fine 2 :=
  ⟨((C8_rasterizeTile_order_and_dispatch true 2
      (fun c => if c = 0 then
        [⟨0, true, true, true, false⟩, ⟨1, false, false, false, true⟩]
        else [⟨2, false, true, true, false⟩])).1).trans (by decide),
   ((C8_rasterizeTile_order_and_dispatch true 2 (fun _ => [])).2
      ⟨1, false, false, false, true⟩).2.1 rfl rfl rfl,
   ((C8_rasterizeTile_order_and_dispatch true 2 (fun _ => [])).2
      ⟨2, false, true, true, false⟩).2.2 rfl (Or.inr rfl)⟩

/-- C6: in the framebuffer-update loop, for every fragment, sample index
s < sampleCount and quad pixel p ∈ {TL,TR,BL,BR} (offsets (0,0), (1,0), (0,1),
(1,1)), the shaded RGB of pixel p is stored into the per-sample color buffer
at (x+dx, y+dy, s) exactly when coverage bit s·4 + p is set, and the buffer at
that position is untouched when the bit is clear; the per-tile loop consumes
the fragment buffer in append order. -/
theorem C6_updateFrameBuffer_coverage_store (sampleCount : ℕ) (colors : Fin 4 → Color)
    (frag : QuadFragmentData) (buf : SampleBuffer) (s : ℕ) (p : Fin 4)
    (hs : s < sampleCount) :
    (updateFragment sampleCount colors frag buf
        (frag.x + (quadOffset p).1, frag.y + (quadOffset p).2, s)
      = if frag.coverageMask.GetBit (s * 4 + p.val) ≠ 0 then colors p
        else buf (frag.x + (quadOffset p).1, frag.y + (quadOffset p).2, s)) ∧
    ∀ (fc : QuadFragmentData × (Fin 4 → Color))
      (rest : List (QuadFragmentData × (Fin 4 → Color))),
      updateTileFragments sampleCount (fc :: rest) buf
        = updateTileFragments sampleCount rest (updateFragment sampleCount fc.2 fc.1 buf) :=
  ⟨updateFragment_at sampleCount colors frag buf s p hs, fun _ _ => rfl⟩

/-- Witness for C6: sampleCount = 2, a fragment at (10,20) whose mask has
exactly bit 6 = 1·4 + 2 set: sample 1 of pixel BL (offset (0,1)) receives the
shaded color, and sample 0 of the same pixel keeps the buffer's old value. -/
theorem C6_updateFrameBuffer_coverage_store_witness :
    updateFragment 2 (fun _ => ((5 : ℚ), (6 : ℚ), (7 : ℚ))) ⟨10, 20, ⟨64, 0, 0, 0⟩⟩
        (fun _ => (0, 0, 0)) (10 + (quadOffset 2).1, 20 + (quadOffset 2).2, 1)
      = (5, 6, 7) ∧
    updateFragment 2 (fun _ => ((5 : ℚ), (6 : ℚ), (7 : ℚ))) ⟨10, 20, ⟨64, 0, 0, 0⟩⟩
        (fun _ => (0, 0, 0)) (10 + (quadOffset 2).1, 20 + (quadOffset 2).2, 0)
      = (0, 0, 0) := by
  constructor
  · have h := (C6_updateFrameBuffer_coverage_store 2 (fun _ => ((5 : ℚ), (6 : ℚ), (7 : ℚ)))
      ⟨10, 20, ⟨64, 0, 0, 0⟩⟩ (fun _ => (0, 0, 0)) 1 2 (by norm_num)).1
    rw [h]
    decide
  · have h := (C6_updateFrameBuffer_coverage_store 2 (fun _ => ((5 : ℚ), (6 : ℚ), (7 : ℚ)))
      ⟨10, 20, ⟨64, 0, 0, 0⟩⟩ (fun _ => (0, 0, 0)) 0 2 (by norm_num)).1
    rw [h]
    decide

/-- C5: the binner computes the triangle's tile-space AABB by shifting the
fixed-point coordinates right by SIZE_LOG_2 + 4 and clamping to
[0, tileDim − 1]; a reference lands on tile (x, y) iff (x, y) is inside the
box, and: when the box spans at most 2×2 tiles the reference is the small one
(big = false); otherwise the tile is skipped exactly when some edge function
at the tile's reject corner is strictly negative, and the added reference is
the big one (big = true) whose accept bits are the edge functions at the
accept corners being ≥ 0. -/
theorem C5_binning_characterization (td : ℤ × ℤ) (i : ℕ) (t : RasterTriangle)
    (x y : ℤ) (r : TriangleRef) :
    ((x, y, r) ∈ binTriangle td i t ↔
      (binMinX t ≤ x ∧ x ≤ binMaxX td t ∧ binMinY t ≤ y ∧ y ≤ binMaxY td t ∧
        if binMaxX td t - binMinX t < 2 ∧ binMaxY td t - binMinY t < 2 then
          r = TriangleRef.small i
        else tileRejected t x y = false ∧ r = bigRefAt t i x y)) ∧
    (tileRejected t x y = true ↔
      (t.EdgeFunc0 (cornerAt x y t.rejectCorner0) < 0 ∨
       t.EdgeFunc1 (cornerAt x y t.rejectCorner1) < 0 ∨
       t.EdgeFunc2 (cornerAt x y t.rejectCorner2) < 0)) ∧
    (TriangleRef.small i).big = false ∧
    (bigRefAt t i x y).big = true ∧
    ((bigRefAt t i x y).acceptBit0 = true ↔
      t.EdgeFunc0 (cornerAt x y t.acceptCorner0) ≥ 0) ∧
    ((bigRefAt t i x y).acceptBit1 = true ↔
      t.EdgeFunc1 (cornerAt x y t.acceptCorner1) ≥ 0) ∧
    ((bigRefAt t i x y).acceptBit2 = true ↔
      t.EdgeFunc2 (cornerAt x y t.acceptCorner2) ≥ 0) := by
  refine ⟨?_, ?_, rfl, rfl, ?_, ?_, ?_⟩
  · simp only [binTriangle]
    split_ifs with hsmall
    · simp only [List.mem_flatMap, List.mem_map, mem_intRange]
      constructor
      · rintro ⟨y1, ⟨hy1, hy2⟩, x1, ⟨hx1, hx2⟩, heq⟩
        simp only [Prod.mk.injEq] at heq
        obtain ⟨hx, hy, hr⟩ := heq
        subst hx
        subst hy
        exact ⟨hx1, hx2, hy1, hy2, hr.symm⟩
      · rintro ⟨hx1, hx2, hy1, hy2, hr⟩
        exact ⟨y, ⟨hy1, hy2⟩, x, ⟨hx1, hx2⟩, by rw [hr]⟩
    · simp only [List.mem_flatMap, List.mem_filterMap, mem_intRange]
      constructor
      · rintro ⟨y1, ⟨hy1, hy2⟩, x1, ⟨hx1, hx2⟩, heq⟩
        by_cases hrej : tileRejected t x1 y1 = true
        · rw [if_pos hrej] at heq
          exact absurd heq (by simp)
        · rw [if_neg hrej] at heq
          simp only [Option.some.injEq, Prod.mk.injEq] at heq
          obtain ⟨hx, hy, hr⟩ := heq
          subst hx
          subst hy
          exact ⟨hx1, hx2, hy1, hy2,
            Bool.not_eq_true _ ▸ hrej, hr.symm⟩
      · rintro ⟨hx1, hx2, hy1, hy2, hrej, hr⟩
        exact ⟨y, ⟨hy1, hy2⟩, x, ⟨hx1, hx2⟩, by simp [hrej, hr]⟩
  · simp [tileRejected, or_assoc]
  · simp [bigRefAt]
  · simp [bigRefAt]
  · simp [bigRefAt]

/-- C3: rendering the same mesh twice in a row with the same settings produces
bitwise-identical resolved backbuffers — the second run starts from the state
and framebuffer the first run produced (frame counter incremented, buffers
written), and still resolves to the same backbuffer, because `RenderMesh`
clears the framebuffer at frame start and every stage is a function of the
mesh and the (unchanged) settings only.  Quantified over every pure
implementation of the stages that are outside the provided sources. -/
theorem C3_renderMesh_deterministic (ext : ExternalStages) (mesh : Mesh)
    (states : RenderStatesData) (fb : FrameBufferData) :
    backBuffer (renderMesh ext mesh (renderMesh ext mesh states fb).1
        (renderMesh ext mesh states fb).2).2
      = backBuffer (renderMesh ext mesh states fb).2 := rfl

end EDXRaster
